import Mathlib

/-!
Verification development for the FACBT repository (src/engine.py,
src/core/account_creator.py, src/main.py).

The Python sources are shallowly embedded: every collaborator call that can
raise is modelled as an `Except Exc` value supplied by a behaviour record,
Python `None` is `Option.none`, float timestamps are rationals, and the
resource events (acquisition / release) performed by a call are collected in
a trace list so that cleanup discipline can be stated.
-/

namespace Facbt

/-- Python exceptions are modelled by their message string. -/
abbrev Exc := String

/-- Identity record produced by the identity manager (only the fields the
embedded code reads). -/
structure Identity where
  first_name : String
  last_name : String
  password : String
  deriving DecidableEq

/-- Proxy handle (managers/proxy_manager.Proxy); only host and port are read
by the embedded code. -/
structure Proxy where
  host : String
  port : Nat
  deriving DecidableEq

/-- User-agent handle; the embedded code reads only its string form. -/
structure UserAgent where
  string : String
  deriving DecidableEq

/-- An email message as returned by email_manager.get_emails: the embedded
code reads the subject and content fields. -/
structure EmailData where
  subject : String
  content : String
  deriving DecidableEq

/-- Resource acquisition / release events, recorded in the order the embedded
code performs them. -/
inductive REvent
  | acqEmail | acqProxy | acqSession | acqBrowser
  | relEmail | relProxy | relSession | relBrowser
  deriving DecidableEq

/-- Prefix test on character lists. -/
def isPrefixChars : List Char → List Char → Bool
  | [], _ => true
  | _ :: _, [] => false
  | a :: as, b :: bs => a = b && isPrefixChars as bs

/-- Substring occurrence on character lists, modelling the Python expression
`pat in s`. -/
def containsChars (pat : List Char) : List Char → Bool
  | [] => pat.isEmpty
  | c :: rest => isPrefixChars pat (c :: rest) || containsChars pat rest

/-- ASCII lowercasing of one character, the fragment of str.lower() the
embedded comparisons rely on. -/
def charLower (c : Char) : Char :=
  if 65 ≤ c.toNat ∧ c.toNat ≤ 90 then Char.ofNat (c.toNat + 32) else c

/-- The characters of s.lower(). -/
def lowerChars (s : String) : List Char :=
  s.toList.map charLower

/-- Python `pat in hay` for a string pattern over already-lowercased
characters. -/
def strContains (hay : List Char) (pat : String) : Bool :=
  containsChars pat.toList hay

/-- Account creation status (account_creator.py, class AccountStatus).  Note
there is no cancelled state. -/
inductive AccountStatus
  | pending | creating | verifying | completed | failed | disabled
  deriving DecidableEq

/-- Result record of FacebookAccountCreator.create_account
(account_creator.py, class AccountCreationResult). -/
structure AccountCreationResult where
  success : Bool
  account_id : Option String := none
  email : Option String := none
  password : Option String := none
  identity : Option Identity := none
  status : AccountStatus := .pending
  error_message : Option String := none
  creation_time : Option ℚ := none
  verification_required : Bool := false
  verification_method : Option String := none
  proxy_used : Option String := none
  user_agent_used : Option String := none
  deriving DecidableEq

/-- Keyword list of FacebookAccountCreator._is_verification_email. -/
def verification_keywords : List String :=
  ["verify", "confirm", "activation", "welcome to facebook",
   "complete your registration", "click to confirm"]

/-- FacebookAccountCreator._is_verification_email: a message is a
verification email when any keyword occurs in its lowercased subject or
content. -/
def is_verification_email (e : EmailData) : Bool :=
  let subject := lowerChars e.subject
  let content := lowerChars e.content
  verification_keywords.any (fun k => strContains subject k || strContains content k)

/-- The for-loop body of _wait_for_verification_email over one batch of
messages: return the first verification link found in a message recognised by
_is_verification_email.  Link extraction itself
(_extract_verification_link, account_creator.py lines 604-622) is
regex matching over the message content; it is passed in as an opaque
function `extract` since no claim depends on the regex patterns. -/
def scanEmails (extract : EmailData → Option String) : List EmailData → Option String
  | [] => none
  | e :: rest =>
    if is_verification_email e then
      match extract e with
      | some link => some link
      | none => scanEmails extract rest
    else scanEmails extract rest

/-- Result dictionary returned by _wait_for_verification_email. -/
structure VerifWaitResult where
  success : Bool
  verification_link : Option String := none
  error : Option String := none
  deriving DecidableEq

/-- max_wait_time = 300 seconds (account_creator.py line 560). -/
def max_wait_time : Nat := 300

/-- check_interval = 10 seconds (account_creator.py line 561). -/
def check_interval : Nat := 10

/-- The while-loop of _wait_for_verification_email (lines 565-584).
`polls k` is the value (or exception) of the k-th call to
email_manager.get_emails; `elapsed` is the elapsed time at the loop test;
`count` counts polls performed.  An exception raised by a poll escapes the
loop to the function-level try/except, which returns a check-failed result
immediately.  `fuel` is a structural bound on the number of iterations; the
loop runs at most max_wait_time / check_interval = 30 times, so any fuel
above 30 yields the exact loop behaviour. -/
def wait_go (extract : EmailData → Option String)
    (polls : Nat → Except Exc (List EmailData)) :
    Nat → Nat → Nat → VerifWaitResult × Nat
  | 0, _, count =>
    (⟨false, none, some "Verification email timeout"⟩, count)
  | fuel + 1, elapsed, count =>
    if elapsed < max_wait_time then
      match polls count with
      | .error e =>
        (⟨false, none, some ("Verification email check failed: " ++ e)⟩, count + 1)
      | .ok emails =>
        match scanEmails extract emails with
        | some link => (⟨true, some link, none⟩, count + 1)
        | none => wait_go extract polls fuel (elapsed + check_interval) (count + 1)
    else
      (⟨false, none, some "Verification email timeout"⟩, count)

/-- FacebookAccountCreator._wait_for_verification_email (lines 557-590),
returning its result dictionary together with the number of polls performed.
Fuel 31 strictly exceeds the 30 loop iterations permitted by
max_wait_time / check_interval, so the fuel case is unreachable. -/
def wait_for_verification_email (extract : EmailData → Option String)
    (polls : Nat → Except Exc (List EmailData)) : VerifWaitResult × Nat :=
  wait_go extract polls 31 0 0

/-- Result dictionary returned by _handle_verification. -/
structure VerifResult where
  success : Bool
  verification_required : Bool := false
  verification_method : Option String := none
  account_id : Option String := none
  error : Option String := none
  deriving DecidableEq

/-- FacebookAccountCreator._handle_verification (lines 508-555): decide from
the page source whether verification is required; if so run the polling
wait; on wait success visit the link and report success; on wait failure
report the generic error "Email verification failed" (the wait result's own
error string is discarded).  Account-id extraction (_extract_account_id,
regex over url and page source) is passed in as the opaque `accountId`.
Also returns the number of polls performed. -/
def handle_verification (page_source : String)
    (extract : EmailData → Option String)
    (polls : Nat → Except Exc (List EmailData))
    (accountId : Option String) : VerifResult × Nat :=
  let ps := lowerChars page_source
  if strContains ps "verify" || strContains ps "confirmation" then
    let w := wait_for_verification_email extract polls
    if w.1.success then
      (⟨true, true, some "email", accountId, none⟩, w.2)
    else
      (⟨false, false, none, none, some "Email verification failed"⟩, w.2)
  else
    (⟨true, false, none, accountId, none⟩, 0)

/-- Behaviour of the injected collaborators of FacebookAccountCreator during
one call to create_account: the value returned (or exception raised) by each
collaborator call, in source order.  `polls k` is the k-th
email_manager.get_emails call; `page_source` is the page content inspected by
_handle_verification; link and account-id extraction (pure regex scans) are
opaque. -/
structure CreatorBehavior where
  wait_for_rate_limit : Except Exc Unit
  generate_identity : Except Exc Identity
  get_temporary_email : Except Exc (Option String)
  get_proxy : Except Exc (Option Proxy)
  get_user_agent : Except Exc (Option UserAgent)
  setup_browser : Except Exc Unit
  navigate : Except Exc Unit
  fill_form : Except Exc Unit
  submit_form : Except Exc Unit
  page_source : String
  extract_link : EmailData → Option String
  polls : Nat → Except Exc (List EmailData)
  extract_account_id : Option String
  release_email : Except Exc Unit
  report_proxy_failure : Except Exc Unit

/-- Outcome of one call to FacebookAccountCreator.create_account: either a
returned AccountCreationResult or an exception that propagated out of the
call, together with the resource-event trace and the number of polls
performed. -/
structure CreatorOut where
  result : Except Exc AccountCreationResult
  events : List REvent
  pollCount : Nat

/-- The finally block of FacebookAccountCreator.create_account (lines
171-177): quit the browser if one was created (_cleanup_browser swallows its
own errors), then, reading the local variable `email`, release the email
when one is bound, truthy and the result is not a success.  Reading `email`
raises UnboundLocalError when the try block failed before the assignment at
line 117 (`emailVar = none` models the unbound state); release_email may
itself raise, and either exception propagates out of the call.  `pending` is
an exception raised inside the except clause, which propagates after the
finally block completes normally. -/
def creator_finally (b : CreatorBehavior) (driverCreated : Bool)
    (emailVar : Option (Option String)) (result : AccountCreationResult)
    (pending : Option Exc) (evs : List REvent) (n : Nat) : CreatorOut :=
  let evs := evs ++ (if driverCreated then [REvent.relBrowser] else [])
  match emailVar with
  | none =>
    ⟨.error "UnboundLocalError: local variable email referenced before assignment", evs, n⟩
  | some emailVal =>
    if emailVal.isSome && !result.success then
      match b.release_email with
      | .error e => ⟨.error e, evs, n⟩
      | .ok _ =>
        let evs := evs ++ [REvent.relEmail]
        match pending with
        | some e => ⟨.error e, evs, n⟩
        | none => ⟨.ok result, evs, n⟩
    else
      match pending with
      | some e => ⟨.error e, evs, n⟩
      | none => ⟨.ok result, evs, n⟩

/-- The except clause of FacebookAccountCreator.create_account (lines
162-169): mark the result failed with the exception text, report a proxy
failure when self.current_proxy is set (it is set by _setup_browser, so only
when browser setup succeeded and a proxy was present), then run the finally
block.  An exception raised by report_proxy_failure replaces the handled one
and propagates after the finally block. -/
def creator_except (b : CreatorBehavior) (e : Exc)
    (currentProxySet driverCreated : Bool)
    (emailVar : Option (Option String)) (result : AccountCreationResult)
    (evs : List REvent) (n : Nat) : CreatorOut :=
  let result := { result with status := .failed, error_message := some e }
  if currentProxySet then
    match b.report_proxy_failure with
    | .error e2 => creator_finally b driverCreated emailVar result (some e2) evs n
    | .ok _ => creator_finally b driverCreated emailVar result none evs n
  else
    creator_finally b driverCreated emailVar result none evs n

namespace FacebookAccountCreator

/-- FacebookAccountCreator.create_account (account_creator.py lines
102-179).  `t0` is the session start timestamp (stored, as in the source, in
creation_time).  Resource acquisitions are recorded when the corresponding
collaborator call returns a resource; note that the source acquires email,
proxy and user agent before checking the email for None (lines 116-121),
proceeds with only a warning when no proxy is available (line 124), and
contains no call that returns the proxy to its manager. -/
def create_account (b : CreatorBehavior) (custom_identity : Option Identity)
    (custom_email : Option String) (t0 : ℚ) : CreatorOut :=
  let result : AccountCreationResult := { success := false, creation_time := some t0 }
  match b.wait_for_rate_limit with
  | .error e => creator_except b e false false none result [] 0
  | .ok _ =>
  match (match custom_identity with | some i => Except.ok i | none => b.generate_identity) with
  | .error e => creator_except b e false false none result [] 0
  | .ok identity =>
  match (match custom_email with | some s => Except.ok (some s) | none => b.get_temporary_email) with
  | .error e => creator_except b e false false none result [] 0
  | .ok emailVal =>
  let evs := if custom_email.isNone && emailVal.isSome then [REvent.acqEmail] else []
  match b.get_proxy with
  | .error e => creator_except b e false false (some emailVal) result evs 0
  | .ok proxyOpt =>
  let evs := evs ++ (if proxyOpt.isSome then [REvent.acqProxy] else [])
  match b.get_user_agent with
  | .error e => creator_except b e false false (some emailVal) result evs 0
  | .ok uaOpt =>
  if emailVal.isNone then
    creator_except b "Failed to get email address" false false (some emailVal) result evs 0
  else
  let result := { result with
    identity := some identity
    email := emailVal
    password := some identity.password
    proxy_used := proxyOpt.map (fun p => p.host ++ ":" ++ toString p.port) }
  match uaOpt with
  | none =>
    creator_except b "AttributeError: NoneType object has no attribute string"
      false false (some emailVal) result evs 0
  | some ua =>
  let result := { result with user_agent_used := some ua.string }
  match b.setup_browser with
  | .error e => creator_except b e false false (some emailVal) result evs 0
  | .ok _ =>
  let currentProxySet := proxyOpt.isSome
  let evs := evs ++ [REvent.acqBrowser]
  match b.navigate with
  | .error e => creator_except b e currentProxySet true (some emailVal) result evs 0
  | .ok _ =>
  match b.fill_form with
  | .error e => creator_except b e currentProxySet true (some emailVal) result evs 0
  | .ok _ =>
  match b.submit_form with
  | .error e => creator_except b e currentProxySet true (some emailVal) result evs 0
  | .ok _ =>
  let vr := handle_verification b.page_source b.extract_link b.polls b.extract_account_id
  let result :=
    if vr.1.success then
      { result with
        success := true
        status := AccountStatus.completed
        account_id := vr.1.account_id
        verification_required := vr.1.verification_required
        verification_method := vr.1.verification_method }
    else
      { result with status := AccountStatus.failed, error_message := vr.1.error }
  creator_finally b true (some emailVal) result none evs vr.2

end FacebookAccountCreator

/-- Result record of FACBTEngine.create_account (engine.py, class
AccountResult). -/
structure AccountResult where
  success : Bool
  account_id : Option String := none
  email : Option String := none
  password : Option String := none
  error : Option String := none
  creation_time : Option ℚ := none
  proxy_used : Option String := none
  user_agent_used : Option String := none
  deriving DecidableEq

/-- Engine statistics (engine.py, class EngineStatistics).  create_account
touches only the three counters; the derived fields are updated by the
background statistics task. -/
structure EngineStatistics where
  total_attempts : Nat := 0
  successful_creations : Nat := 0
  failed_creations : Nat := 0
  average_creation_time : ℚ := 0
  success_rate : ℚ := 0
  uptime : ℚ := 0
  accounts_per_hour : ℚ := 0
  deriving DecidableEq

/-- Outcome of the account-creation workflow run by the engine.  Modelled
from the spec: the class AccountCreationStateMachine constructed at
engine.py line 232 is not among the sources (nor is the facebook_service
attribute it is given); per the spec's Task Orchestrator, a terminal Failed
result carries its error kind and a Completed one records the result, so the
whole construct-and-execute step (lines 232-241) is one fallible step whose
failure outcome carries an error string. -/
inductive SMResult
  | ok (account_id : Option String)
  | failed (error : String)
  deriving DecidableEq

/-- Behaviour of the injected collaborators of FACBTEngine during one call
to create_account, in source order; the last three fields are the cleanup
calls made in the finally block. -/
structure EngineBehavior where
  generate_identity : Except Exc Identity
  create_email : Except Exc String
  get_proxy : Except Exc Proxy
  get_user_agent : Except Exc UserAgent
  create_session : Except Exc Unit
  sm_execute : Except Exc SMResult
  cleanup_session : Except Exc Unit
  release_proxy : Except Exc Unit
  cleanup_email : Except Exc Unit

/-- Email leg of the engine's finally block: cleanup_email runs when the
local `email` is bound; a release event is recorded only when the call
returns normally. -/
def engCleanupEmail (b : EngineBehavior) (he : Bool) : List REvent :=
  if he then
    match b.cleanup_email with
    | .error _ => []
    | .ok _ => [REvent.relEmail]
  else []

/-- Proxy leg of the engine's finally block: release_proxy runs when the
local `proxy` is bound; an exception it raises is caught by the surrounding
try, skipping the email cleanup. -/
def engCleanupProxy (b : EngineBehavior) (hp he : Bool) : List REvent :=
  if hp then
    match b.release_proxy with
    | .error _ => []
    | .ok _ => REvent.relProxy :: engCleanupEmail b he
  else engCleanupEmail b he

/-- The finally block of FACBTEngine.create_account (engine.py lines
279-289): one try wraps all three cleanup calls (session, proxy, email, each
guarded by a locals() membership test), so an exception from an earlier
cleanup call skips the later ones; the except clause only logs.  The flags
say which locals are bound. -/
def engCleanup (b : EngineBehavior) (hs hp he : Bool) : List REvent :=
  if hs then
    match b.cleanup_session with
    | .error _ => []
    | .ok _ => REvent.relSession :: engCleanupProxy b hp he
  else engCleanupProxy b hp he

/-- Output of one call to FACBTEngine.create_account: the returned record,
the updated statistics and creation-time list, and the resource-event
trace. -/
structure EngOut where
  result : AccountResult
  statistics : EngineStatistics
  creation_times : List ℚ
  events : List REvent

/-- The except branch of FACBTEngine.create_account (lines 269-278): count a
failed creation and return a failure record whose error prefixes the
exception text; then the finally block runs with the given bound locals. -/
def engExceptOut (b : EngineBehavior) (s : EngineStatistics) (times : List ℚ)
    (t0 t1 : ℚ) (e : Exc) (acq : List REvent) (hs hp he : Bool) : EngOut :=
  ⟨{ success := false
     error := some ("Account creation error: " ++ e)
     creation_time := some (t1 - t0) },
   { s with failed_creations := s.failed_creations + 1 }, times,
   acq ++ engCleanup b hs hp he⟩

namespace FACBTEngine

/-- FACBTEngine.create_account (engine.py lines 201-289).  `t0` and `t1` are
the values of time.time() at entry and at exit.  Acquisition order follows
the source: identity, email, proxy, user agent, session; the workflow step
then yields success (statistics and creation_times updated, full record
returned), a failure outcome, or an exception. -/
def create_account (b : EngineBehavior) (s0 : EngineStatistics)
    (times : List ℚ) (t0 t1 : ℚ) : EngOut :=
  let s := { s0 with total_attempts := s0.total_attempts + 1 }
  match b.generate_identity with
  | .error e => engExceptOut b s times t0 t1 e [] false false false
  | .ok identity =>
  match b.create_email with
  | .error e => engExceptOut b s times t0 t1 e [] false false false
  | .ok emailAddr =>
  let acq := [REvent.acqEmail]
  match b.get_proxy with
  | .error e => engExceptOut b s times t0 t1 e acq false false true
  | .ok proxy =>
  let acq := acq ++ [REvent.acqProxy]
  match b.get_user_agent with
  | .error e => engExceptOut b s times t0 t1 e acq false true true
  | .ok user_agent =>
  match b.create_session with
  | .error e => engExceptOut b s times t0 t1 e acq false true true
  | .ok _ =>
  let acq := acq ++ [REvent.acqSession]
  match b.sm_execute with
  | .error e => engExceptOut b s times t0 t1 e acq true true true
  | .ok (.failed err) =>
    ⟨{ success := false
       error := some err
       creation_time := some (t1 - t0) },
     { s with failed_creations := s.failed_creations + 1 }, times,
     acq ++ engCleanup b true true true⟩
  | .ok (.ok accountId) =>
    let creation_time := t1 - t0
    ⟨{ success := true
       account_id := accountId
       email := some emailAddr
       password := some identity.password
       creation_time := some creation_time
       proxy_used := some (proxy.host ++ ":" ++ toString proxy.port)
       user_agent_used := some user_agent.string },
     { s with successful_creations := s.successful_creations + 1 },
     times ++ [creation_time],
     acq ++ engCleanup b true true true⟩

end FACBTEngine

/-- Python division: x / y raises ZeroDivisionError when y is zero. -/
def pydiv (a b : ℚ) : Option ℚ :=
  if b = 0 then none else some (a / b)

/-- FACBTEngine._calculate_success_rate (engine.py lines 343-347). -/
def calculate_success_rate (s : EngineStatistics) : Option ℚ :=
  if s.total_attempts = 0 then some 0
  else (pydiv (s.successful_creations : ℚ) (s.total_attempts : ℚ)).map (· * 100)

/-- FACBTEngine._calculate_average_creation_time (engine.py lines 349-353). -/
def calculate_average_creation_time (times : List ℚ) : Option ℚ :=
  if times = [] then some 0
  else pydiv times.sum (times.length : ℚ)

/-- FACBTEngine._calculate_accounts_per_hour (engine.py lines 355-360).
`start_time` is self.start_time (None before initialisation; the Python
guard is truthiness, so a start time of exactly 0.0 would also take the
guarded branch, which the Option models only for None) and `now` is
time.time(). -/
def calculate_accounts_per_hour (start_time : Option ℚ)
    (successful_creations : Nat) (now : ℚ) : Option ℚ :=
  match start_time with
  | none => some 0
  | some st =>
    if successful_creations = 0 then some 0
    else
      let uptime_hours := (now - st) / 3600
      pydiv (successful_creations : ℚ) uptime_hours

namespace FACBTApplication

/-- The per-account loop of FACBTApplication.run (main.py lines 79-92):
before each account the loop tests self.shutdown_event.is_set() and breaks
when it is set; otherwise the task runs to completion.  `eventAt t` is the
event state at time t, `tasks i` gives the i-th task's success flag and
duration, `n` the accounts still to create, `i` the next index, `t` the
current time.  Returns the success count and the indices of the tasks that
executed.  This loop-top test is the only read of a shutdown event on the
account-creation path in the sources. -/
def run_loop (eventAt : Nat → Bool) (tasks : Nat → Bool × Nat) :
    Nat → Nat → Nat → Nat × List Nat
  | 0, _, _ => (0, [])
  | n + 1, i, t =>
    if eventAt t then (0, [])
    else
      let task := tasks i
      let rest := run_loop eventAt tasks n (i + 1) (t + task.2)
      ((if task.1 then 1 else 0) + rest.1, i :: rest.2)

/-- Number of polls the confirmation-polling loop performs for a task that
is running while the external shutdown signal has history `eventAt`: the
loop body of _wait_for_verification_email (account_creator.py lines 565-579)
contains no read of any shutdown event — the only is_set test on this path
is at main.py line 81, before a task starts — so the count is that of
wait_for_verification_email whatever the signal does. -/
def pollsUnderShutdown (eventAt : Nat → Bool)
    (extract : EmailData → Option String)
    (polls : Nat → Except Exc (List EmailData)) : Nat :=
  let _ := eventAt
  (wait_for_verification_email extract polls).2

end FACBTApplication

namespace Pool

/-- Modelled from the spec: the Resource Pool Coordinator (spec sections
4.1 and 5) lives in the managers package, which is not among the sources; a
pooled resource is an opaque handle with an identity, a health flag and a
borrowed-by-at-most-one-task discipline. -/
structure PoolRes where
  rid : Nat
  healthy : Bool
  borrowed : Bool
  deriving DecidableEq

/-- Modelled from the spec: `acquire` returns a healthy, currently-unborrowed
resource (marked borrowed in the returned pool) or Unavailable (`none`);
spec section 5 makes acquire atomic (mutual exclusion around the
borrow-set), so N concurrent acquire calls execute as a sequential
interleaving of N atomic acquires. -/
def acquire : List PoolRes → Option Nat × List PoolRes
  | [] => (none, [])
  | r :: rest =>
    if r.healthy && !r.borrowed then
      (some r.rid, { r with borrowed := true } :: rest)
    else
      let step := acquire rest
      (step.1, r :: step.2)

/-- Modelled from the spec: `release` returns the resource to the pool
(clears its borrowed mark). -/
def release (pool : List PoolRes) (rid : Nat) : List PoolRes :=
  pool.map (fun r => if r.rid = rid then { r with borrowed := false } else r)

/-- N atomic acquire calls in sequence: the outcomes in call order plus the
final pool. -/
def acquireN : Nat → List PoolRes → List (Option Nat) × List PoolRes
  | 0, pool => ([], pool)
  | n + 1, pool =>
    let step := acquire pool
    let rest := acquireN n step.2
    (step.1 :: rest.1, rest.2)

/-- Identities of the healthy, unborrowed resources, in pool order. -/
def availRids (pool : List PoolRes) : List Nat :=
  (pool.filter (fun r => r.healthy && !r.borrowed)).map PoolRes.rid

end Pool

/-! ### Helper lemmas about the embedded cleanup paths -/

theorem creator_finally_count_other (b : CreatorBehavior) (dc : Bool)
    (ev : Option (Option String)) (res : AccountCreationResult)
    (p : Option Exc) (evs : List REvent) (n : Nat) (x : REvent)
    (hx1 : x ≠ .relBrowser) (hx2 : x ≠ .relEmail) :
    (creator_finally b dc ev res p evs n).events.count x = evs.count x := by
  rcases ev with _ | ev2
  · cases dc <;> simp [creator_finally, List.count_append, List.count_singleton, hx1]
  · cases dc <;> rcases h : b.release_email with e | u <;> rcases p with _ | pe <;>
      by_cases hc : ev2.isSome && !res.success <;>
      simp [creator_finally, h, hc, List.count_append, List.count_singleton, hx1, hx2]

theorem creator_except_count_other (b : CreatorBehavior) (e : Exc)
    (cps dc : Bool) (ev : Option (Option String)) (res : AccountCreationResult)
    (evs : List REvent) (n : Nat) (x : REvent)
    (hx1 : x ≠ .relBrowser) (hx2 : x ≠ .relEmail) :
    (creator_except b e cps dc ev res evs n).events.count x = evs.count x := by
  unfold creator_except
  cases cps <;> rcases h : b.report_proxy_failure with e2 | u <;>
    simp [h, creator_finally_count_other, hx1, hx2]

theorem creator_finally_count_relBrowser (b : CreatorBehavior) (dc : Bool)
    (ev : Option (Option String)) (res : AccountCreationResult)
    (p : Option Exc) (evs : List REvent) (n : Nat) :
    (creator_finally b dc ev res p evs n).events.count .relBrowser =
      evs.count .relBrowser + (if dc then 1 else 0) := by
  rcases ev with _ | ev2
  · cases dc <;> simp [creator_finally, List.count_append, List.count_singleton]
  · cases dc <;> rcases h : b.release_email with e | u <;> rcases p with _ | pe <;>
      by_cases hc : ev2.isSome && !res.success <;>
      simp [creator_finally, h, hc, List.count_append, List.count_singleton]

theorem creator_except_count_relBrowser (b : CreatorBehavior) (e : Exc)
    (cps dc : Bool) (ev : Option (Option String)) (res : AccountCreationResult)
    (evs : List REvent) (n : Nat) :
    (creator_except b e cps dc ev res evs n).events.count .relBrowser =
      evs.count .relBrowser + (if dc then 1 else 0) := by
  unfold creator_except
  cases cps <;> rcases h : b.report_proxy_failure with e2 | u <;>
    simp [h, creator_finally_count_relBrowser]

theorem creator_finally_count_relEmail_le (b : CreatorBehavior) (dc : Bool)
    (ev : Option (Option String)) (res : AccountCreationResult)
    (p : Option Exc) (evs : List REvent) (n : Nat) :
    (creator_finally b dc ev res p evs n).events.count .relEmail ≤
      evs.count .relEmail + 1 := by
  rcases ev with _ | ev2
  · cases dc <;> simp [creator_finally, List.count_append, List.count_singleton]
  · cases dc <;> rcases h : b.release_email with e | u <;> rcases p with _ | pe <;>
      by_cases hc : ev2.isSome && !res.success <;>
      simp [creator_finally, h, hc, List.count_append, List.count_singleton]

theorem creator_except_count_relEmail_le (b : CreatorBehavior) (e : Exc)
    (cps dc : Bool) (ev : Option (Option String)) (res : AccountCreationResult)
    (evs : List REvent) (n : Nat) :
    (creator_except b e cps dc ev res evs n).events.count .relEmail ≤
      evs.count .relEmail + 1 := by
  unfold creator_except
  cases cps <;> rcases h : b.report_proxy_failure with e2 | u <;>
    simp [h, creator_finally_count_relEmail_le]

theorem creator_finally_result_ok (b : CreatorBehavior) (dc : Bool)
    (ev : Option (Option String)) (res : AccountCreationResult)
    (p : Option Exc) (evs : List REvent) (n : Nat) (r : AccountCreationResult)
    (h : (creator_finally b dc ev res p evs n).result = .ok r) : r = res := by
  rcases ev with _ | ev2
  · simp [creator_finally] at h
  · rcases h2 : b.release_email with e | u <;> rcases p with _ | pe <;>
      by_cases hc : ev2.isSome && !res.success <;>
      simp [creator_finally, h2, hc] at h <;> exact h.symm

theorem creator_finally_count_relEmail_success (b : CreatorBehavior) (dc : Bool)
    (ev : Option (Option String)) (res : AccountCreationResult)
    (p : Option Exc) (evs : List REvent) (n : Nat)
    (hres : res.success = true) :
    (creator_finally b dc ev res p evs n).events.count .relEmail =
      evs.count .relEmail := by
  rcases ev with _ | ev2
  · cases dc <;> simp [creator_finally, List.count_append, List.count_singleton]
  · have hc : (ev2.isSome && !res.success) = false := by simp [hres]
    cases dc <;> rcases p with _ | pe <;>
      simp [creator_finally, hc, List.count_append, List.count_singleton]

theorem creator_finally_count_relProxy (b : CreatorBehavior) (dc : Bool)
    (ev : Option (Option String)) (res : AccountCreationResult)
    (p : Option Exc) (evs : List REvent) (n : Nat) :
    (creator_finally b dc ev res p evs n).events.count .relProxy =
      evs.count .relProxy :=
  creator_finally_count_other b dc ev res p evs n _ (by decide) (by decide)

theorem creator_except_count_relProxy (b : CreatorBehavior) (e : Exc)
    (cps dc : Bool) (ev : Option (Option String)) (res : AccountCreationResult)
    (evs : List REvent) (n : Nat) :
    (creator_except b e cps dc ev res evs n).events.count .relProxy =
      evs.count .relProxy :=
  creator_except_count_other b e cps dc ev res evs n _ (by decide) (by decide)

theorem creator_finally_count_acqBrowser (b : CreatorBehavior) (dc : Bool)
    (ev : Option (Option String)) (res : AccountCreationResult)
    (p : Option Exc) (evs : List REvent) (n : Nat) :
    (creator_finally b dc ev res p evs n).events.count .acqBrowser =
      evs.count .acqBrowser :=
  creator_finally_count_other b dc ev res p evs n _ (by decide) (by decide)

theorem creator_except_count_acqBrowser (b : CreatorBehavior) (e : Exc)
    (cps dc : Bool) (ev : Option (Option String)) (res : AccountCreationResult)
    (evs : List REvent) (n : Nat) :
    (creator_except b e cps dc ev res evs n).events.count .acqBrowser =
      evs.count .acqBrowser :=
  creator_except_count_other b e cps dc ev res evs n _ (by decide) (by decide)

theorem creator_except_ok_success (b : CreatorBehavior) (e : Exc)
    (cps dc : Bool) (ev : Option (Option String)) (res : AccountCreationResult)
    (evs : List REvent) (n : Nat) (r : AccountCreationResult)
    (hres : res.success = false)
    (h : (creator_except b e cps dc ev res evs n).result = .ok r) :
    r.success = false := by
  simp only [creator_except] at h
  by_cases hcps : cps
  · rcases hb : b.report_proxy_failure with e2 | u <;> simp [hcps, hb] at h <;>
      (have hq := creator_finally_result_ok _ _ _ _ _ _ _ _ h; subst hq; simpa using hres)
  · simp [hcps] at h
    have hq := creator_finally_result_ok _ _ _ _ _ _ _ _ h
    subst hq; simpa using hres

theorem creator_except_ok_eval (b : CreatorBehavior) (e : Exc) (dc : Bool)
    (emailVal : Option String) (res : AccountCreationResult)
    (evs : List REvent) (n : Nat)
    (hsucc : res.success = false) (hrel : b.release_email = .ok ()) :
    (creator_except b e false dc (some emailVal) res evs n).result =
      .ok { res with status := .failed, error_message := some e } := by
  cases hv : emailVal <;>
    simp [creator_except, creator_finally, hrel, hsucc, hv]

theorem engCleanup_all_ok (b : EngineBehavior)
    (h1 : b.cleanup_session = .ok ()) (h2 : b.release_proxy = .ok ())
    (h3 : b.cleanup_email = .ok ()) (hs hp he : Bool) :
    engCleanup b hs hp he =
      (if hs then [REvent.relSession] else []) ++
      (if hp then [REvent.relProxy] else []) ++
      (if he then [REvent.relEmail] else []) := by
  cases hs <;> cases hp <;> cases he <;>
    simp [engCleanup, engCleanupProxy, engCleanupEmail, h1, h2, h3]

/-! ### Helper lemmas about the confirmation-polling loop -/

theorem wait_go_timeout (extract : EmailData → Option String)
    (polls : Nat → Except Exc (List EmailData))
    (h : ∀ k, ∃ es, polls k = .ok es ∧ scanEmails extract es = none) :
    ∀ (fuel j : Nat), 30 ≤ j + fuel → j ≤ 30 →
      wait_go extract polls fuel (check_interval * j) j =
        (⟨false, none, some "Verification email timeout"⟩, 30) := by
  intro fuel
  induction fuel with
  | zero =>
    intro j hj1 hj2
    have hj : j = 30 := by omega
    subst hj
    simp [wait_go]
  | succ n ih =>
    intro j hj1 hj2
    by_cases hlt : j < 30
    · obtain ⟨es, hok, hscan⟩ := h j
      have hcond : check_interval * j < max_wait_time := by
        simp only [check_interval, max_wait_time]; omega
      have hstep : check_interval * j + check_interval = check_interval * (j + 1) := by
        simp only [check_interval]; omega
      simp only [wait_go, hcond, if_true, hok, hscan]
      rw [hstep]
      exact ih (j + 1) (by omega) (by omega)
    · have hj : j = 30 := by omega
      subst hj
      have hcond : ¬ (check_interval * 30 < max_wait_time) := by decide
      simp [wait_go, hcond]

theorem wait_go_pollError (extract : EmailData → Option String)
    (polls : Nat → Except Exc (List EmailData)) (k : Nat) (e : Exc)
    (hk : k < 30)
    (hprev : ∀ j, j < k → ∃ es, polls j = .ok es ∧ scanEmails extract es = none)
    (herr : polls k = .error e) :
    ∀ (fuel j : Nat), j ≤ k → k < j + fuel →
      wait_go extract polls fuel (check_interval * j) j =
        (⟨false, none, some ("Verification email check failed: " ++ e)⟩, k + 1) := by
  intro fuel
  induction fuel with
  | zero => intro j h1 h2; omega
  | succ n ih =>
    intro j h1 h2
    have hcond : check_interval * j < max_wait_time := by
      simp only [check_interval, max_wait_time]; omega
    by_cases hjk : j = k
    · subst hjk
      simp [wait_go, hcond, herr]
    · obtain ⟨es, hok, hscan⟩ := hprev j (by omega)
      have hstep : check_interval * j + check_interval = check_interval * (j + 1) := by
        simp only [check_interval]; omega
      simp only [wait_go, hcond, if_true, hok, hscan]
      rw [hstep]
      exact ih (j + 1) (by omega) (by omega)

/-! ### Helper lemmas about the pool model -/

namespace Pool

theorem acquire_spec (pool : List PoolRes) :
    (acquire pool).1 = (availRids pool).head? ∧
    availRids (acquire pool).2 = (availRids pool).tail := by
  induction pool with
  | nil => simp [acquire, availRids]
  | cons r rest ih =>
    simp only [availRids] at ih ⊢
    by_cases hr : r.healthy && !r.borrowed
    · have hr2 : (({ r with borrowed := true } : PoolRes).healthy &&
          !({ r with borrowed := true } : PoolRes).borrowed) = false := by simp
      simp [acquire, hr, List.filter_cons, hr2]
    · have hrB : (r.healthy && !r.borrowed) = false := by
        revert hr; cases r.healthy && !r.borrowed <;> simp
      simp [acquire, hrB, List.filter_cons, ih.1, ih.2]

theorem acquireN_results (N : Nat) (pool : List PoolRes) :
    (acquireN N pool).1 =
      ((availRids pool).take N).map some ++
      List.replicate (N - (availRids pool).length) none := by
  induction N generalizing pool with
  | zero => simp [acquireN]
  | succ n ih =>
    obtain ⟨h1, h2⟩ := acquire_spec pool
    rcases hav : availRids pool with _ | ⟨a, rest⟩
    · rw [hav] at h1 h2
      simp only [acquireN, ih, h1, h2, hav]
      simp [List.replicate_succ]
    · rw [hav] at h1 h2
      simp only [acquireN, ih, h1, h2, hav]
      simp [List.replicate, List.take]

end Pool

/-! ### Concrete collaborator behaviours used as test vectors -/

/-- A creator collaborator behaviour in which every call succeeds, a proxy
and user agent are available, the post-submission page requires no
verification, and polls return no messages. -/
def creatorAllOk : CreatorBehavior where
  wait_for_rate_limit := .ok ()
  generate_identity := .ok ⟨"Alice", "Smith", "pw1"⟩
  get_temporary_email := .ok (some "alice@mail.test")
  get_proxy := .ok (some ⟨"10.0.0.1", 8080⟩)
  get_user_agent := .ok (some ⟨"Mozilla UA"⟩)
  setup_browser := .ok ()
  navigate := .ok ()
  fill_form := .ok ()
  submit_form := .ok ()
  page_source := ""
  extract_link := fun _ => none
  polls := fun _ => .ok []
  extract_account_id := none
  release_email := .ok ()
  report_proxy_failure := .ok ()

/-- Like creatorAllOk, but identity generation raises. -/
def creatorIdentityDown : CreatorBehavior :=
  { creatorAllOk with generate_identity := .error "identity generation failed" }

/-- Like creatorAllOk, but the post-submission page demands verification and
no confirmation message ever arrives. -/
def creatorVerifyTimeout : CreatorBehavior :=
  { creatorAllOk with page_source := "please verify your email" }

/-- Like creatorAllOk, but no proxy is available. -/
def creatorNoProxy : CreatorBehavior :=
  { creatorAllOk with get_proxy := .ok none }

/-- Like creatorAllOk, but no temporary email address is available. -/
def creatorNoEmail : CreatorBehavior :=
  { creatorAllOk with get_temporary_email := .ok none }

/-- Like creatorAllOk, but no user agent is available. -/
def creatorNoUserAgent : CreatorBehavior :=
  { creatorAllOk with get_user_agent := .ok none }

/-- An engine collaborator behaviour in which every step succeeds and the
workflow reports success. -/
def engineAllOk : EngineBehavior where
  generate_identity := .ok ⟨"Alice", "Smith", "pw1"⟩
  create_email := .ok "alice@mail.test"
  get_proxy := .ok ⟨"10.0.0.1", 8080⟩
  get_user_agent := .ok ⟨"Mozilla UA"⟩
  create_session := .ok ()
  sm_execute := .ok (.ok (some "100234"))
  cleanup_session := .ok ()
  release_proxy := .ok ()
  cleanup_email := .ok ()

/-- Like engineAllOk, but the workflow reports a failure outcome. -/
def engineSMFailed : EngineBehavior :=
  { engineAllOk with sm_execute := .ok (.failed "Registration blocked") }

/-! ### Claim C1 -/

/-- C1 (corrected): the claim says every resource acquired during a call to
FACBTEngine.create_account or FacebookAccountCreator.create_account is
released exactly once before the call returns, on success, failure and
exception paths alike.  This fails in FacebookAccountCreator.create_account:
the run below acquires an email, a proxy and a browser, returns a success
result, yet the trace contains no proxy release at all and no email release
either (the email is only released on failure). -/
theorem C1_counterexample :
    (FacebookAccountCreator.create_account creatorAllOk none none 0).events =
      [.acqEmail, .acqProxy, .acqBrowser, .relBrowser] ∧
    (FacebookAccountCreator.create_account creatorAllOk none none 0).events.count .acqProxy = 1 ∧
    (FacebookAccountCreator.create_account creatorAllOk none none 0).events.count .relProxy = 0 ∧
    ∃ r, (FacebookAccountCreator.create_account creatorAllOk none none 0).result = .ok r ∧
      r.success = true ∧
      (FacebookAccountCreator.create_account creatorAllOk none none 0).events.count .relEmail = 0 :=
  ⟨rfl, rfl, rfl, ⟨_, rfl, rfl, rfl⟩⟩

/-- C1 (amended): in FACBTEngine.create_account, when the cleanup calls of
the finally block themselves return normally, each of session, proxy and
email is released exactly as many times as it was acquired (exactly once
when acquired) on every termination path; in
FacebookAccountCreator.create_account the browser is quit exactly as many
times as it was launched, but the proxy is never released, the email is
released at most once, and never when the returned result is a success. -/
theorem C1_theorem :
    (∀ (b : EngineBehavior) (s : EngineStatistics) (times : List ℚ) (t0 t1 : ℚ),
      b.cleanup_session = .ok () → b.release_proxy = .ok () → b.cleanup_email = .ok () →
      (FACBTEngine.create_account b s times t0 t1).events.count .relSession =
        (FACBTEngine.create_account b s times t0 t1).events.count .acqSession ∧
      (FACBTEngine.create_account b s times t0 t1).events.count .relProxy =
        (FACBTEngine.create_account b s times t0 t1).events.count .acqProxy ∧
      (FACBTEngine.create_account b s times t0 t1).events.count .relEmail =
        (FACBTEngine.create_account b s times t0 t1).events.count .acqEmail) ∧
    (∀ (b : CreatorBehavior) (ci : Option Identity) (ce : Option String) (t0 : ℚ),
      (FacebookAccountCreator.create_account b ci ce t0).events.count .relProxy = 0 ∧
      (FacebookAccountCreator.create_account b ci ce t0).events.count .relBrowser =
        (FacebookAccountCreator.create_account b ci ce t0).events.count .acqBrowser ∧
      (FacebookAccountCreator.create_account b ci ce t0).events.count .relEmail ≤ 1 ∧
      (∀ r, (FacebookAccountCreator.create_account b ci ce t0).result = .ok r →
        r.success = true →
        (FacebookAccountCreator.create_account b ci ce t0).events.count .relEmail = 0)) := by
  constructor
  · intro b s times t0 t1 h1 h2 h3
    unfold FACBTEngine.create_account
    repeat' split
    all_goals refine ⟨?_, ?_, ?_⟩
    all_goals
      simp [engExceptOut, engCleanup_all_ok b h1 h2 h3, List.count_append]
  · intro b ci ce t0
    unfold FacebookAccountCreator.create_account
    repeat' split
    all_goals refine ⟨?_, ?_, ?_, ?_⟩
    all_goals
      first
      | (intro r hok hsucc
         first
         | (have hr := creator_finally_result_ok _ _ _ _ _ _ _ _ hok
            subst hr
            refine (creator_finally_count_relEmail_success _ _ _ _ _ _ _ hsucc).trans ?_
            simp [List.count_append])
         | (exact absurd (creator_except_ok_success _ _ _ _ _ _ _ _ _ rfl hok)
             (by simp [hsucc])))
      | (refine le_trans (creator_finally_count_relEmail_le _ _ _ _ _ _ _) ?_
         simp [List.count_append])
      | (refine le_trans (creator_except_count_relEmail_le _ _ _ _ _ _ _ _) ?_
         simp [List.count_append])
      | simp [creator_finally_count_relProxy, creator_except_count_relProxy,
          creator_finally_count_acqBrowser, creator_except_count_acqBrowser,
          creator_finally_count_relBrowser, creator_except_count_relBrowser,
          List.count_append]

/-- C1 witness: the amended statement evaluated on concrete behaviours with
every cleanup call succeeding. -/
theorem C1_witness :
    ((FACBTEngine.create_account engineAllOk {} [] 0 1).events.count .relProxy =
      (FACBTEngine.create_account engineAllOk {} [] 0 1).events.count .acqProxy) ∧
    (FacebookAccountCreator.create_account creatorAllOk none none 0).events.count .relProxy = 0 :=
  ⟨(C1_theorem.1 engineAllOk {} [] 0 1 rfl rfl rfl).2.1,
   (C1_theorem.2 creatorAllOk none none 0).1⟩

/-! ### Claim C2 -/

/-- C2 (code bug): the claim says that for every behaviour of the injected
collaborators both create_account entry points return a failure-marked
result object and never let an exception escape.  The except handler of
FacebookAccountCreator.create_account shows this is the intent, but its
finally block reads the local variable `email`, which is unbound whenever
the exception occurred before the assignment at line 117; the call then
raises UnboundLocalError instead of returning a result.  Here
identity_manager.generate_identity raising is enough to trigger it. -/
theorem C2_theorem :
    (FacebookAccountCreator.create_account creatorIdentityDown none none 0).result =
      .error "UnboundLocalError: local variable email referenced before assignment" :=
  rfl

/-! ### Claim C3 -/

/-- C3 (corrected): with verification required and no confirmation ever
arriving, the polling loop does return a failure after 30 polls (300 seconds
at the 10-second interval) whose error is the timeout-specific
"Verification email timeout", and the task's final result is Failed — but
_handle_verification discards that error and the final result carries the
generic "Email verification failed", which does not identify the
confirmation timeout. -/
theorem C3_counterexample :
    wait_for_verification_email creatorVerifyTimeout.extract_link creatorVerifyTimeout.polls =
      (⟨false, none, some "Verification email timeout"⟩, 30) ∧
    (FacebookAccountCreator.create_account creatorVerifyTimeout none none 0).pollCount = 30 ∧
    (∃ r, (FacebookAccountCreator.create_account creatorVerifyTimeout none none 0).result = .ok r ∧
      r.status = .failed ∧
      r.error_message = some "Email verification failed" ∧
      r.error_message ≠ some "Verification email timeout") :=
  ⟨rfl, rfl, ⟨_, rfl, rfl, rfl, by decide⟩⟩

/-- C3 (amended): if verification is required, every poll returns normally
and none of the returned messages yields a verification link, then
_wait_for_verification_email returns a failure carrying "Verification email
timeout" after exactly 30 polls (max_wait_time 300 s at 10 s intervals),
and the task's final result is Failed — carrying the generic error "Email
verification failed" with which _handle_verification replaces the
timeout-specific one. -/
theorem C3_theorem (b : CreatorBehavior) (em : String) (i : Identity)
    (p : Option Proxy) (ua : UserAgent) (t0 : ℚ)
    (hrl : b.wait_for_rate_limit = .ok ())
    (hid : b.generate_identity = .ok i)
    (hem : b.get_temporary_email = .ok (some em))
    (hpx : b.get_proxy = .ok p)
    (hua : b.get_user_agent = .ok (some ua))
    (hsetup : b.setup_browser = .ok ()) (hnav : b.navigate = .ok ())
    (hfill : b.fill_form = .ok ()) (hsub : b.submit_form = .ok ())
    (hrel : b.release_email = .ok ())
    (hpage : (strContains (lowerChars b.page_source) "verify" ||
              strContains (lowerChars b.page_source) "confirmation") = true)
    (hpolls : ∀ k, ∃ es, b.polls k = .ok es ∧ scanEmails b.extract_link es = none) :
    wait_for_verification_email b.extract_link b.polls =
      (⟨false, none, some "Verification email timeout"⟩, 30) ∧
    (FacebookAccountCreator.create_account b none none t0).pollCount = 30 ∧
    ∃ r, (FacebookAccountCreator.create_account b none none t0).result = .ok r ∧
      r.status = .failed ∧ r.success = false ∧
      r.error_message = some "Email verification failed" := by
  have hw : wait_for_verification_email b.extract_link b.polls =
      (⟨false, none, some "Verification email timeout"⟩, 30) := by
    have h30 := wait_go_timeout b.extract_link b.polls hpolls 31 0 (by omega) (by omega)
    simpa [wait_for_verification_email] using h30
  have hhv : handle_verification b.page_source b.extract_link b.polls b.extract_account_id =
      (⟨false, false, none, none, some "Email verification failed"⟩, 30) := by
    simp [handle_verification, hpage, hw]
  refine ⟨hw, ?_, ?_⟩
  · unfold FacebookAccountCreator.create_account
    simp [hrl, hid, hem, hpx, hua, hsetup, hnav, hfill, hsub, hhv, creator_finally, hrel]
  · unfold FacebookAccountCreator.create_account
    simp [hrl, hid, hem, hpx, hua, hsetup, hnav, hfill, hsub, hhv, creator_finally, hrel]

/-- C3 witness: the amended statement evaluated on a concrete behaviour
whose page demands verification and whose polls always return no
messages. -/
theorem C3_witness :
    wait_for_verification_email creatorVerifyTimeout.extract_link creatorVerifyTimeout.polls =
      (⟨false, none, some "Verification email timeout"⟩, 30) ∧
    (FacebookAccountCreator.create_account creatorVerifyTimeout none none 0).pollCount = 30 ∧
    ∃ r, (FacebookAccountCreator.create_account creatorVerifyTimeout none none 0).result = .ok r ∧
      r.status = .failed ∧ r.success = false ∧
      r.error_message = some "Email verification failed" :=
  C3_theorem creatorVerifyTimeout "alice@mail.test" ⟨"Alice", "Smith", "pw1"⟩
    (some ⟨"10.0.0.1", 8080⟩) ⟨"Mozilla UA"⟩ 0 rfl rfl rfl rfl rfl rfl rfl rfl rfl rfl
    (by decide) (fun k => ⟨[], rfl, rfl⟩)

/-! ### Claim C4 -/

/-- C4 (corrected): the claim says an exception raised by a single poll of
the confirmation source is swallowed and retried at the next interval until
the maximum total wait elapses.  The try/except of
_wait_for_verification_email wraps the whole loop, so the very first poll
raising makes the function return a failure immediately: one poll performed
instead of 30, with a check-failed error. -/
theorem C4_counterexample :
    wait_for_verification_email (fun _ => none) (fun _ => .error "network down") =
      (⟨false, none, some "Verification email check failed: network down"⟩, 1) ∧
    (1 : Nat) ≠ 30 :=
  ⟨rfl, by decide⟩

/-- C4 (amended): if the polls before index k return normally without
yielding a verification link and poll k raises, the wait terminates at poll
k with a failure result carrying "Verification email check failed"; the
failed poll is not retried. -/
theorem C4_theorem (extract : EmailData → Option String)
    (polls : Nat → Except Exc (List EmailData)) (k : Nat) (e : Exc)
    (hk : k < 30)
    (hprev : ∀ j, j < k → ∃ es, polls j = .ok es ∧ scanEmails extract es = none)
    (herr : polls k = .error e) :
    wait_for_verification_email extract polls =
      (⟨false, none, some ("Verification email check failed: " ++ e)⟩, k + 1) := by
  have h := wait_go_pollError extract polls k e hk hprev herr 31 0 (by omega) (by omega)
  simpa [wait_for_verification_email] using h

/-- C4 witness: the amended statement evaluated at a poll source whose
first poll raises. -/
theorem C4_witness :
    wait_for_verification_email (fun _ => none) (fun _ => .error "proxy refused") =
      (⟨false, none, some "Verification email check failed: proxy refused"⟩, 1) :=
  C4_theorem (fun _ => none) (fun _ => .error "proxy refused") 0 "proxy refused"
    (by omega) (fun j hj => absurd hj (by omega)) rfl

/-! ### Claim C5 -/

/-- C5 (corrected): the claim says that when any of email, proxy or user
agent is unavailable the task transitions directly to Failed with reason
ResourceUnavailable without performing the external action.  With no proxy
available the code merely logs a warning and proceeds: the run below has
get_proxy return None, yet the browser is launched (the external action is
performed) and the task completes successfully. -/
theorem C5_counterexample :
    ∃ r, (FacebookAccountCreator.create_account creatorNoProxy none none 0).result = .ok r ∧
      r.success = true ∧ r.status = .completed ∧ r.proxy_used = none ∧
      (FacebookAccountCreator.create_account creatorNoProxy none none 0).events.count .acqBrowser = 1 :=
  ⟨_, rfl, rfl, rfl, rfl, rfl⟩

/-- C5 (amended): during provisioning, a missing email address or a missing
user agent fails the task without performing the external action — with the
error "Failed to get email address", respectively the AttributeError raised
by reading user_agent.string, not a ResourceUnavailable reason — but a
missing proxy does not fail the task: the code logs a warning and proceeds
to perform the external action without a proxy. -/
theorem C5_theorem (b : CreatorBehavior) (t0 : ℚ)
    (hrl : b.wait_for_rate_limit = .ok ())
    (hid : ∃ i, b.generate_identity = .ok i) :
    (∀ p u, b.get_proxy = .ok p → b.get_user_agent = .ok u →
      b.get_temporary_email = .ok none →
      ∃ r, (FacebookAccountCreator.create_account b none none t0).result = .ok r ∧
        r.status = .failed ∧
        r.error_message = some "Failed to get email address" ∧
        (FacebookAccountCreator.create_account b none none t0).events.count .acqBrowser = 0) ∧
    (∀ em p, b.get_temporary_email = .ok (some em) → b.get_proxy = .ok p →
      b.get_user_agent = .ok none → b.release_email = .ok () →
      ∃ r, (FacebookAccountCreator.create_account b none none t0).result = .ok r ∧
        r.status = .failed ∧
        r.error_message = some "AttributeError: NoneType object has no attribute string" ∧
        (FacebookAccountCreator.create_account b none none t0).events.count .acqBrowser = 0) ∧
    (∀ em ua, b.get_temporary_email = .ok (some em) → b.get_proxy = .ok none →
      b.get_user_agent = .ok (some ua) →
      b.setup_browser = .ok () → b.navigate = .ok () → b.fill_form = .ok () →
      b.submit_form = .ok () →
      (FacebookAccountCreator.create_account b none none t0).events.count .acqBrowser = 1) := by
  obtain ⟨i, hid⟩ := hid
  refine ⟨?_, ?_, ?_⟩
  · intro p u hpx hua hem
    unfold FacebookAccountCreator.create_account
    simp only [hrl, hid, hem, hpx, hua, Option.isNone_none, Option.isSome_none,
      Bool.and_false, if_false, if_true, ite_true, ite_false]
    refine ⟨_, rfl, rfl, rfl, ?_⟩
    rw [creator_except_count_acqBrowser]
    cases p <;> simp
  · intro em p hem hpx huan hrel
    unfold FacebookAccountCreator.create_account
    simp only [hrl, hid, hem, hpx, huan, Option.isNone_some, Option.isSome_some,
      Bool.and_true, Bool.true_and, Bool.false_eq_true, if_false, if_true,
      ite_true, ite_false]
    refine ⟨_, creator_except_ok_eval b _ _ _ _ _ _ rfl hrel, rfl, rfl, ?_⟩
    rw [creator_except_count_acqBrowser]
    cases p <;> simp
  · intro em ua hem hpx hua hsetup hnav hfill hsub
    unfold FacebookAccountCreator.create_account
    simp [hrl, hid, hem, hpx, hua, hsetup, hnav, hfill, hsub,
      creator_finally_count_acqBrowser, List.count_append]

/-- C5 witness: the amended statement evaluated on concrete behaviours with,
in turn, no email, no user agent, and no proxy available. -/
theorem C5_witness :
    (∃ r, (FacebookAccountCreator.create_account creatorNoEmail none none 0).result = .ok r ∧
      r.status = .failed ∧
      r.error_message = some "Failed to get email address" ∧
      (FacebookAccountCreator.create_account creatorNoEmail none none 0).events.count .acqBrowser = 0) ∧
    (∃ r, (FacebookAccountCreator.create_account creatorNoUserAgent none none 0).result = .ok r ∧
      r.status = .failed ∧
      r.error_message = some "AttributeError: NoneType object has no attribute string" ∧
      (FacebookAccountCreator.create_account creatorNoUserAgent none none 0).events.count .acqBrowser = 0) ∧
    (FacebookAccountCreator.create_account creatorNoProxy none none 0).events.count .acqBrowser = 1 :=
  ⟨(C5_theorem creatorNoEmail 0 rfl ⟨_, rfl⟩).1 (some ⟨"10.0.0.1", 8080⟩)
      (some ⟨"Mozilla UA"⟩) rfl rfl rfl,
   (C5_theorem creatorNoUserAgent 0 rfl ⟨_, rfl⟩).2.1 "alice@mail.test"
      (some ⟨"10.0.0.1", 8080⟩) rfl rfl rfl rfl,
   (C5_theorem creatorNoProxy 0 rfl ⟨_, rfl⟩).2.2 "alice@mail.test"
      ⟨"Mozilla UA"⟩ rfl rfl rfl rfl rfl rfl rfl⟩

/-! ### Claim C6 -/

/-- C6 (corrected): the claim says the shutdown signal is observable at
every suspension point of a running task and a task cancelled at any of them
still releases its resources before reporting a cancelled outcome.  In the
run below the signal is set from time 5 onwards — before 29 of the 30
polling iterations of the task started at time 0 — yet the polling loop
performs all 30 polls, and the run loop lets the task run to completion,
only refusing to start the next task. -/
theorem C6_counterexample :
    FACBTApplication.pollsUnderShutdown (fun t => decide (5 ≤ t)) (fun _ => none)
      (fun _ => .ok []) = 30 ∧
    FACBTApplication.run_loop (fun t => decide (5 ≤ t)) (fun _ => (false, 300)) 2 0 0 =
      (0, [0]) :=
  ⟨rfl, rfl⟩

/-- C6 (amended): the shutdown event is observed only between tasks — the
run loop breaks before starting a task when the event is set at the loop
top, and otherwise runs the task to completion; within a running task the
confirmation-polling loop never observes the signal (its poll count is the
same for every signal history), and no cancelled outcome exists. -/
theorem C6_theorem :
    (∀ (e1 e2 : Nat → Bool) (extract : EmailData → Option String)
        (polls : Nat → Except Exc (List EmailData)),
      FACBTApplication.pollsUnderShutdown e1 extract polls =
        FACBTApplication.pollsUnderShutdown e2 extract polls) ∧
    (∀ (eventAt : Nat → Bool) (tasks : Nat → Bool × Nat) (n i t : Nat),
      eventAt t = true →
      FACBTApplication.run_loop eventAt tasks (n + 1) i t = (0, [])) ∧
    (∀ (eventAt : Nat → Bool) (tasks : Nat → Bool × Nat) (n i t : Nat),
      eventAt t = false →
      (FACBTApplication.run_loop eventAt tasks (n + 1) i t).2 =
        i :: (FACBTApplication.run_loop eventAt tasks n (i + 1) (t + (tasks i).2)).2) := by
  refine ⟨fun _ _ _ _ => rfl, ?_, ?_⟩ <;> intro eventAt tasks n i t h <;>
    simp [FACBTApplication.run_loop, h]

/-- C6 witness: the amended statement evaluated on concrete signal
histories: an event set at the loop top prevents the task from starting, and
an unset one lets task 0 execute. -/
theorem C6_witness :
    FACBTApplication.run_loop (fun _ => true) (fun _ => (false, 300)) 1 0 0 = (0, []) ∧
    (FACBTApplication.run_loop (fun _ => false) (fun _ => (false, 300)) 1 0 0).2 =
      0 :: (FACBTApplication.run_loop (fun _ => false) (fun _ => (false, 300)) 0 1 300).2 :=
  ⟨C6_theorem.2.1 (fun _ => true) (fun _ => (false, 300)) 0 0 0 rfl,
   C6_theorem.2.2 (fun _ => false) (fun _ => (false, 300)) 0 0 0 rfl⟩

/-! ### Claim C7 -/

theorem filterMap_id_map_some (l : List Nat) : (l.map some).filterMap id = l := by
  induction l with
  | nil => rfl
  | cons a l ih => simp [ih]

theorem filterMap_id_replicate_none (k : Nat) :
    (List.replicate k (none : Option Nat)).filterMap id = [] := by
  induction k with
  | zero => rfl
  | succ n ih => simp [List.replicate_succ, ih]

theorem count_none_map_some (l : List Nat) :
    (l.map some).count (none : Option Nat) = 0 := by
  induction l with
  | nil => rfl
  | cons a l ih => simp [List.count_cons, ih]

/-- C7 (confirmed, against the spec-modelled pool): N atomic acquire calls
against a pool of M healthy unborrowed resources with distinct identities,
M < N, produce exactly M successful acquisitions, N - M Unavailable
outcomes, and pairwise-distinct returned resources — no resource goes to
two concurrent borrowers. -/
theorem C7_theorem (pool : List Pool.PoolRes) (N : Nat)
    (hhealthy : ∀ r ∈ pool, r.healthy = true ∧ r.borrowed = false)
    (hnodup : (pool.map Pool.PoolRes.rid).Nodup)
    (hM : pool.length < N) :
    ((Pool.acquireN N pool).1.filterMap id).length = pool.length ∧
    (Pool.acquireN N pool).1.count none = N - pool.length ∧
    ((Pool.acquireN N pool).1.filterMap id).Nodup := by
  have hav : Pool.availRids pool = pool.map Pool.PoolRes.rid := by
    unfold Pool.availRids
    congr 1
    refine List.filter_eq_self.mpr ?_
    intro a ha
    obtain ⟨h1, h2⟩ := hhealthy a ha
    simp [h1, h2]
  have hres := Pool.acquireN_results N pool
  rw [hav] at hres
  have hlen : (List.map Pool.PoolRes.rid pool).length = pool.length := by simp
  have htake : (List.map Pool.PoolRes.rid pool).take N = List.map Pool.PoolRes.rid pool := by
    apply List.take_of_length_le
    omega
  rw [hres, htake, hlen]
  refine ⟨?_, ?_, ?_⟩
  · simp [List.filterMap_append, filterMap_id_map_some, filterMap_id_replicate_none]
  · simp [List.count_append, count_none_map_some, List.count_replicate_self,
      List.count_eq_zero]
  · simpa [List.filterMap_append, filterMap_id_map_some, filterMap_id_replicate_none]
      using hnodup

/-- C7 witness: three acquire calls against a fresh two-resource pool:
two succeed with distinct resources, one receives Unavailable. -/
theorem C7_witness :
    ((Pool.acquireN 3 [⟨1, true, false⟩, ⟨2, true, false⟩]).1.filterMap id).length = 2 ∧
    (Pool.acquireN 3 [⟨1, true, false⟩, ⟨2, true, false⟩]).1.count none = 1 ∧
    ((Pool.acquireN 3 [⟨1, true, false⟩, ⟨2, true, false⟩]).1.filterMap id).Nodup :=
  C7_theorem [⟨1, true, false⟩, ⟨2, true, false⟩] 3 (by decide) (by decide) (by decide)

/-! ### Claim C8 -/

/-- C8 (corrected): the claim says every AccountResult carries the
identifiers of the resources used (proxy address and user agent).  When the
workflow reports failure, the proxy was acquired (the trace shows it) yet
the returned record leaves proxy_used and user_agent_used unset. -/
theorem C8_counterexample :
    (FACBTEngine.create_account engineSMFailed {} [] 0 5).result.success = false ∧
    (FACBTEngine.create_account engineSMFailed {} [] 0 5).result.error =
      some "Registration blocked" ∧
    (FACBTEngine.create_account engineSMFailed {} [] 0 5).result.proxy_used = none ∧
    (FACBTEngine.create_account engineSMFailed {} [] 0 5).result.user_agent_used = none ∧
    (FACBTEngine.create_account engineSMFailed {} [] 0 5).events.count .acqProxy = 1 :=
  ⟨rfl, rfl, rfl, rfl, rfl⟩

/-- C8 (amended): every call returns a record with a success flag, an error
present exactly when success is false, and creation_time set to the elapsed
time on success, failure and exception paths alike; the proxy address and
user agent are recorded only in success records — failure records leave both
unset. -/
theorem C8_theorem (b : EngineBehavior) (s : EngineStatistics) (times : List ℚ) (t0 t1 : ℚ) :
    ((FACBTEngine.create_account b s times t0 t1).result.success = true ↔
      (FACBTEngine.create_account b s times t0 t1).result.error = none) ∧
    (FACBTEngine.create_account b s times t0 t1).result.creation_time = some (t1 - t0) ∧
    ((FACBTEngine.create_account b s times t0 t1).result.success = true →
      ((FACBTEngine.create_account b s times t0 t1).result.proxy_used).isSome = true ∧
      ((FACBTEngine.create_account b s times t0 t1).result.user_agent_used).isSome = true) ∧
    ((FACBTEngine.create_account b s times t0 t1).result.success = false →
      (FACBTEngine.create_account b s times t0 t1).result.proxy_used = none ∧
      (FACBTEngine.create_account b s times t0 t1).result.user_agent_used = none) := by
  unfold FACBTEngine.create_account
  repeat' split
  all_goals simp [engExceptOut]

/-- C8 witness: the amended statement evaluated on a failing workflow
outcome: the failure record leaves both resource identifiers unset. -/
theorem C8_witness :
    (FACBTEngine.create_account engineSMFailed {} [] 0 5).result.proxy_used = none ∧
    (FACBTEngine.create_account engineSMFailed {} [] 0 5).result.user_agent_used = none :=
  (C8_theorem engineSMFailed {} [] 0 5).2.2.2 rfl

/-! ### Claim C9 -/

/-- C9 (confirmed): every call to FACBTEngine.create_account increments
total_attempts exactly once and exactly one of successful_creations or
failed_creations, so the invariant total_attempts = successful_creations +
failed_creations is preserved. -/
theorem C9_theorem (b : EngineBehavior) (s : EngineStatistics) (times : List ℚ) (t0 t1 : ℚ) :
    (FACBTEngine.create_account b s times t0 t1).statistics.total_attempts =
      s.total_attempts + 1 ∧
    (((FACBTEngine.create_account b s times t0 t1).statistics.successful_creations =
        s.successful_creations + 1 ∧
      (FACBTEngine.create_account b s times t0 t1).statistics.failed_creations =
        s.failed_creations) ∨
     ((FACBTEngine.create_account b s times t0 t1).statistics.failed_creations =
        s.failed_creations + 1 ∧
      (FACBTEngine.create_account b s times t0 t1).statistics.successful_creations =
        s.successful_creations)) ∧
    (s.total_attempts = s.successful_creations + s.failed_creations →
      (FACBTEngine.create_account b s times t0 t1).statistics.total_attempts =
        (FACBTEngine.create_account b s times t0 t1).statistics.successful_creations +
        (FACBTEngine.create_account b s times t0 t1).statistics.failed_creations) := by
  unfold FACBTEngine.create_account
  repeat' split
  all_goals simp [engExceptOut]
  all_goals omega

/-- C9 witness: the counter invariant evaluated on a concrete successful
run starting from fresh statistics. -/
theorem C9_witness :
    (FACBTEngine.create_account engineAllOk {} [] 0 1).statistics.total_attempts =
      (FACBTEngine.create_account engineAllOk {} [] 0 1).statistics.successful_creations +
      (FACBTEngine.create_account engineAllOk {} [] 0 1).statistics.failed_creations :=
  (C9_theorem engineAllOk {} [] 0 1).2.2 rfl

/-! ### Claim C10 -/

/-- C10 (corrected): the claim says no division by zero occurs in any of
the three derived-statistics calculators under their guards.  The guard of
_calculate_accounts_per_hour only checks for a missing start time or zero
successes: when time.time() returns exactly the start time (here both 5)
with one success, the division divides by an uptime of zero. -/
theorem C10_counterexample :
    calculate_accounts_per_hour (some 5) 1 5 = none ∧
    (1 : Nat) ≠ 0 ∧ (some (5 : ℚ)).isSome = true := by
  refine ⟨?_, by decide, rfl⟩
  norm_num [calculate_accounts_per_hour, pydiv]

/-- C10 (amended): _calculate_success_rate and
_calculate_average_creation_time are total under their guards, returning 0
on the guarded branch and the claimed quotient otherwise;
_calculate_accounts_per_hour returns 0 when there is no start time or no
success, and divides safely only when the current time differs from the
start time — its guard does not exclude a zero uptime. -/
theorem C10_theorem (s : EngineStatistics) (times : List ℚ) (st now : ℚ) (k : Nat) :
    (calculate_success_rate s).isSome = true ∧
    (s.total_attempts = 0 → calculate_success_rate s = some 0) ∧
    (s.total_attempts ≠ 0 → calculate_success_rate s =
      some ((s.successful_creations : ℚ) / (s.total_attempts : ℚ) * 100)) ∧
    (calculate_average_creation_time times).isSome = true ∧
    (times = [] → calculate_average_creation_time times = some 0) ∧
    (times ≠ [] → calculate_average_creation_time times =
      some (times.sum / (times.length : ℚ))) ∧
    calculate_accounts_per_hour none k now = some 0 ∧
    (calculate_accounts_per_hour (some st) 0 now = some 0) ∧
    (k ≠ 0 → now ≠ st → calculate_accounts_per_hour (some st) k now =
      some ((k : ℚ) / ((now - st) / 3600))) := by
  refine ⟨?_, ?_, ?_, ?_, ?_, ?_, rfl, ?_, ?_⟩
  · by_cases h : s.total_attempts = 0 <;>
      simp [calculate_success_rate, pydiv, h, Nat.cast_eq_zero]
  · intro h; simp [calculate_success_rate, h]
  · intro h; simp [calculate_success_rate, pydiv, h, Nat.cast_eq_zero]
  · by_cases h : times = []
    · simp [calculate_average_creation_time, h]
    · have hlen : (times.length : ℚ) ≠ 0 := by
        simpa [Nat.cast_eq_zero, List.length_eq_zero] using h
      simp [calculate_average_creation_time, pydiv, h, hlen]
  · intro h; simp [calculate_average_creation_time, h]
  · intro h
    have hlen : (times.length : ℚ) ≠ 0 := by
      simpa [Nat.cast_eq_zero, List.length_eq_zero] using h
    simp [calculate_average_creation_time, pydiv, h, hlen]
  · simp [calculate_accounts_per_hour]
  · intro hk hne
    have hdiv : (now - st) / 3600 ≠ 0 :=
      div_ne_zero (sub_ne_zero.mpr hne) (by norm_num)
    simp [calculate_accounts_per_hour, pydiv, hk, hdiv]

/-- C10 witness: the amended statement evaluated at concrete statistics and
times. -/
theorem C10_witness :
    calculate_success_rate
      { total_attempts := 2, successful_creations := 1, failed_creations := 1 } =
      some ((((2 : Nat) : ℚ))⁻¹ * ((1 : Nat) : ℚ) * 100) ∧
    calculate_accounts_per_hour (some 0) 2 7200 =
      some (((2 : Nat) : ℚ) / ((7200 - 0) / 3600)) := by
  constructor
  · have h := (C10_theorem
      { total_attempts := 2, successful_creations := 1, failed_creations := 1 }
      [] 0 0 0).2.2.1 (by norm_num)
    simpa [div_eq_inv_mul, mul_comm] using h
  · exact (C10_theorem { } [] 0 7200 2).2.2.2.2.2.2.2.2 (by norm_num) (by norm_num)

end Facbt
